import Mathlib

/-!
Verification of the JAMRA offline-storage diagnostic tool
(`scripts/debug-offline-storage.py`).

The tool issues a fixed battery of read-only SQL queries against a SQLite
store with three tables (`offline_manga`, `offline_chapters`,
`download_queue`) and renders an inventory report plus three anomaly
checks.  We embed the store as three Lean lists of row records (plus the
list of table names used by the tables-present check), and each SQL query
as a Lean function on that store.  SQL `ORDER BY` is modelled as a stable
merge sort on the query's sort key; SQL integer division (used by the
frozen-download elapsed-minutes expression) is modelled as `Int` division,
which agrees with SQLite's truncating division on the non-negative values
arising there.
-/

/-- A row of `offline_manga` (spec entity DownloadedWork).
Columns as selected by the script: `id, extension_id, manga_id, manga_slug,
downloaded_at, last_updated_at, total_size_bytes`. -/
structure MangaRow where
  id : Nat
  extension_id : String
  manga_id : String
  manga_slug : String
  downloaded_at : Int
  last_updated_at : Option Int
  total_size_bytes : Option Int
deriving DecidableEq, Repr

/-- A row of `offline_chapters` (spec entity DownloadedChapter).
`chapter_number` is orderable and may be fractional, hence `ℚ`;
`total_pages` is nullable (null is an anomaly signal). -/
structure ChapterRow where
  id : Nat
  offline_manga_id : Nat
  chapter_id : String
  chapter_number : ℚ
  chapter_title : Option String
  total_pages : Option Int
  downloaded_at : Int
  size_bytes : Int
deriving DecidableEq, Repr

/-- A row of `download_queue` (spec entity QueueEntry).
`chapter_id = none` means a whole-work download. -/
structure QueueRow where
  id : Nat
  extension_id : String
  manga_id : String
  manga_slug : String
  chapter_id : Option String
  chapter_number : Option ℚ
  chapter_title : Option String
  status : String
  priority : Int
  queued_at : Int
  started_at : Option Int
  completed_at : Option Int
  error_message : Option String
  progress_current : Option Int
  progress_total : Option Int
deriving DecidableEq, Repr

/-- The persisted store: the three tables read by the tool, plus the table
names visible in `sqlite_master` (used only by the tables-present check). -/
structure Store where
  tables : List String
  manga : List MangaRow
  chapters : List ChapterRow
  queue : List QueueRow
deriving DecidableEq, Repr

/-! ### Status glyphs (queue rendering, both entry points)

The script maps `status` to an emoji with
`{'queued': …, 'downloading': …, 'completed': …, 'failed': …}.get(status, '❓')`;
the same literal dictionary appears in `inspect_database` and in
`check_specific_manga`. -/

/-- The status-to-glyph mapping with its `.get` fallback for unrecognized
statuses. -/
def statusEmoji (status : String) : String :=
  if status = "queued" then "⏳"
  else if status = "downloading" then "⬇️"
  else if status = "completed" then "✅"
  else if status = "failed" then "❌"
  else "❓"

/-! ### Progress percentage (downloading entries)

Python:
```
progress_pct = 0
if item['progress_total'] and item['progress_total'] > 0:
    progress_pct = (item['progress_current'] / item['progress_total']) * 100
```
`item['progress_total']` is truthy iff it is non-null and non-zero.  When
the guard passes but `progress_current` is null, Python raises `TypeError`
(`None / int`); we model that as `none`. -/

/-- Python truthiness of a nullable integer column. -/
def pyTruthy : Option Int → Bool
  | none => false
  | some v => v != 0

/-- The progress-percentage computation for a `downloading` entry.
`none` models the Python `TypeError` raised when the guard passes but
`progress_current` is null. -/
def progressPct (progress_current progress_total : Option Int) : Option ℚ :=
  if pyTruthy progress_total && (progress_total.getD 0 > 0) then
    match progress_current with
    | some c => some (((c : ℚ) / ((progress_total.getD 0 : Int) : ℚ)) * 100)
    | none => none
  else
    some 0

/-! ### Frozen-download check

SQL: `WHERE status = 'downloading' AND started_at IS NOT NULL
AND (strftime('%s','now') * 1000 - started_at) > 3600000`, with the
selected column
`(strftime('%s','now') * 1000 - started_at) / 1000 / 60 AS minutes_elapsed`
(SQLite integer division).  `now` stands for the value of
`strftime('%s','now') * 1000`. -/

/-- The frozen-download `WHERE` predicate for one queue row at time `now`
(epoch milliseconds). -/
def frozenFlag (q : QueueRow) (now : Int) : Bool :=
  q.status = "downloading" &&
    (match q.started_at with
     | none => false
     | some t => now - t > 3600000)

/-- A row of the frozen-download query result. -/
structure FrozenFinding where
  id : Nat
  manga_slug : String
  chapter_number : Option ℚ
  started_at : Option Int
  minutes_elapsed : Int
deriving DecidableEq, Repr

/-- The `minutes_elapsed` expression: SQLite integer division
`(now - started_at) / 1000 / 60`. -/
def minutesElapsed (now started : Int) : Int :=
  (now - started) / 1000 / 60

/-- The frozen-download query: the flagged rows with their (integer)
elapsed minutes. -/
def frozenFindings (s : Store) (now : Int) : List FrozenFinding :=
  (s.queue.filter (fun q => frozenFlag q now)).map fun q =>
    { id := q.id
      manga_slug := q.manga_slug
      chapter_number := q.chapter_number
      started_at := q.started_at
      minutes_elapsed :=
        match q.started_at with
        | none => 0
        | some t => minutesElapsed now t }

/-! ### Empty-chapter check

SQL: `FROM offline_chapters oc JOIN offline_manga om ON
oc.offline_manga_id = om.id WHERE oc.total_pages = 0 OR oc.total_pages IS
NULL`. -/

/-- The empty-chapter `WHERE` predicate (`total_pages = 0 OR total_pages
IS NULL`; `NULL = 0` is not true in SQL, the `IS NULL` disjunct catches
it). -/
def emptyChapterFlag (c : ChapterRow) : Bool :=
  (match c.total_pages with
   | none => false
   | some p => p = 0) || c.total_pages.isNone

/-- A row of the empty-chapter query result. -/
structure EmptyFinding where
  manga_slug : String
  chapter_id : String
  chapter_number : ℚ
  total_pages : Option Int
deriving DecidableEq, Repr

/-- The findings contributed by one chapter row: its join partners in
`offline_manga`, when the `WHERE` predicate holds. -/
def emptyFindingsFor (s : Store) (c : ChapterRow) : List EmptyFinding :=
  if emptyChapterFlag c then
    (s.manga.filter (fun m => m.id = c.offline_manga_id)).map fun m =>
      { manga_slug := m.manga_slug
        chapter_id := c.chapter_id
        chapter_number := c.chapter_number
        total_pages := c.total_pages }
  else []

/-- The empty-chapter query result over the whole store. -/
def emptyChapterFindings (s : Store) : List EmptyFinding :=
  s.chapters.flatMap (emptyFindingsFor s)

/-! ### Duplicate-queue-entry check

SQL:
```
SELECT dq.id AS queue_id, dq.chapter_id, dq.chapter_number,
       dq.status AS queue_status, om.manga_slug
FROM download_queue dq
JOIN offline_manga om ON dq.extension_id = om.extension_id
    AND dq.manga_id = om.manga_id
JOIN offline_chapters oc ON oc.offline_manga_id = om.id
    AND oc.chapter_id = dq.chapter_id
WHERE dq.chapter_id IS NOT NULL
```
A null `dq.chapter_id` satisfies neither the join condition
`oc.chapter_id = dq.chapter_id` nor the `WHERE` clause. -/

/-- A row of the duplicate-queue-entry query result. -/
structure DupFinding where
  queue_id : Nat
  chapter_id : Option String
  chapter_number : Option ℚ
  queue_status : String
  manga_slug : String
deriving DecidableEq, Repr

/-- The findings contributed by one queue row: its join partners in
`offline_manga` (business key `(extension_id, manga_id)`) and
`offline_chapters` (owner's surrogate id plus `chapter_id`), when
`chapter_id` is non-null. -/
def dupFindingsFor (s : Store) (q : QueueRow) : List DupFinding :=
  if q.chapter_id.isSome then
    (s.manga.filter
        (fun m => m.extension_id = q.extension_id && m.manga_id = q.manga_id)).flatMap
      fun m =>
        (s.chapters.filter
            (fun c => c.offline_manga_id = m.id && some c.chapter_id = q.chapter_id)).map
          fun _c =>
            { queue_id := q.id
              chapter_id := q.chapter_id
              chapter_number := q.chapter_number
              queue_status := q.status
              manga_slug := m.manga_slug }
  else []

/-- The duplicate-queue-entry query result over the whole store. -/
def duplicateFindings (s : Store) : List DupFinding :=
  s.queue.flatMap (dupFindingsFor s)

/-! ### Queue ordering

SQL `ORDER BY priority DESC, queued_at ASC`, used both by the full queue
listing and by the single-target lookup's queue query.  `ORDER BY` is
modelled as a stable merge sort on the key. -/

/-- The comparison realizing `ORDER BY priority DESC, queued_at ASC`. -/
def queueLE (a b : QueueRow) : Bool :=
  b.priority < a.priority || (a.priority = b.priority && a.queued_at ≤ b.queued_at)

/-- Sort queue rows by `(priority desc, queued_at asc)` (stable). -/
def sortQueue (l : List QueueRow) : List QueueRow :=
  l.mergeSort queueLE

/-- `SELECT … FROM download_queue ORDER BY priority DESC, queued_at ASC`. -/
def listQueueEntries (s : Store) : List QueueRow :=
  sortQueue s.queue

/-- The single-target lookup's queue query:
`SELECT * FROM download_queue WHERE extension_id = ? AND manga_id = ?
ORDER BY priority DESC, queued_at ASC`. -/
def queueItemsFor (s : Store) (ext mid : String) : List QueueRow :=
  sortQueue
    (s.queue.filter (fun q => q.extension_id = ext && q.manga_id = mid))

/-! ### Statistics

Five `COUNT(*)` queries and one `SUM(total_size_bytes)`; Python applies
`or 0` to the sum (SQL `SUM` is `NULL` over an empty/all-null column). -/

/-- `SELECT COUNT(*) FROM download_queue WHERE status = ?`. -/
def statusCount (s : Store) (st : String) : Nat :=
  (s.queue.filter (fun q => q.status = st)).length

/-- SQL `SUM` over a nullable integer column: `NULL` when no non-null
value exists, otherwise the sum of the non-null values. -/
def sqlSum (l : List (Option Int)) : Option Int :=
  let vs := l.filterMap id
  if vs.isEmpty then none else some vs.sum

/-- `SELECT SUM(total_size_bytes) FROM offline_manga` followed by the
Python `or 0` (a falsy `None` or `0` both yield `0`). -/
def totalSize (s : Store) : Int :=
  match sqlSum (s.manga.map (·.total_size_bytes)) with
  | none => 0
  | some v => v

/-- The statistics section of the report. -/
structure Statistics where
  manga_count : Nat
  chapter_count : Nat
  queued_count : Nat
  downloading_count : Nat
  failed_count : Nat
  total_size : Int
deriving DecidableEq, Repr

/-- The six statistics queries of the report, in source order. -/
def computeStatistics (s : Store) : Statistics :=
  { manga_count := s.manga.length
    chapter_count := s.chapters.length
    queued_count := statusCount s "queued"
    downloading_count := statusCount s "downloading"
    failed_count := statusCount s "failed"
    total_size := totalSize s }

/-! ### Anomaly-check outcomes

Each check renders either an explicit clean line (`✅ …`) or the list of
findings (`if findings: … else: print clean`); both outcomes are
first-class. -/

/-- The rendered outcome of one anomaly check. -/
inductive CheckOutcome (α : Type) where
  | clean : CheckOutcome α
  | flagged : List α → CheckOutcome α
deriving DecidableEq, Repr

/-- Python `if findings: … else: clean` on a query result. -/
def outcomeOf {α : Type} (findings : List α) : CheckOutcome α :=
  if findings.isEmpty then .clean else .flagged findings

/-! ### Remaining reader operations -/

/-- Character-list prefix match, the core of SQL `LIKE 'pre%'`. -/
def likeChars : List Char → List Char → Bool
  | [], _ => true
  | _ :: _, [] => false
  | p :: ps, c :: cs => p = c && likeChars ps cs

/-- SQL `name LIKE 'pre%'` (modelled case-sensitively; the table names
involved are all lower-case). -/
def sqlLike (pre s : String) : Bool :=
  likeChars pre.data s.data

/-- The tables-present check:
`SELECT name FROM sqlite_master WHERE type='table' AND name LIKE
'offline%' OR name LIKE 'download%' ORDER BY name`, restricted to the
store's table names. -/
def matchingTables (s : Store) : List String :=
  (s.tables.filter
      (fun n => sqlLike "offline" n || sqlLike "download" n)).mergeSort
    (fun a b => a ≤ b)

/-- `SELECT … FROM offline_manga ORDER BY downloaded_at DESC`. -/
def listDownloadedWorks (s : Store) : List MangaRow :=
  s.manga.mergeSort (fun a b => b.downloaded_at ≤ a.downloaded_at)

/-- A row of the chapters-joined-with-works listing. -/
structure ChapterJoinRow where
  id : Nat
  manga_slug : String
  chapter_id : String
  chapter_number : ℚ
  chapter_title : Option String
  total_pages : Option Int
  downloaded_at : Int
  size_bytes : Int
deriving DecidableEq, Repr

/-- The comparison realizing `ORDER BY om.manga_slug, oc.chapter_number`. -/
def chapterJoinLE (a b : ChapterJoinRow) : Bool :=
  a.manga_slug < b.manga_slug ||
    (a.manga_slug = b.manga_slug && a.chapter_number ≤ b.chapter_number)

/-- `SELECT … FROM offline_chapters oc JOIN offline_manga om ON
oc.offline_manga_id = om.id ORDER BY om.manga_slug, oc.chapter_number`. -/
def listChaptersJoined (s : Store) : List ChapterJoinRow :=
  (s.chapters.flatMap fun c =>
      (s.manga.filter (fun m => m.id = c.offline_manga_id)).map fun m =>
        { id := c.id
          manga_slug := m.manga_slug
          chapter_id := c.chapter_id
          chapter_number := c.chapter_number
          chapter_title := c.chapter_title
          total_pages := c.total_pages
          downloaded_at := c.downloaded_at
          size_bytes := c.size_bytes }).mergeSort chapterJoinLE

/-- The single-target lookup's work query with `fetchone`:
`SELECT * FROM offline_manga WHERE extension_id = ? AND manga_id = ?`. -/
def findMangaByKey (s : Store) (ext mid : String) : Option MangaRow :=
  (s.manga.filter (fun m => m.extension_id = ext && m.manga_id = mid)).head?

/-- The single-target lookup's chapter query:
`SELECT * FROM offline_chapters WHERE offline_manga_id = ?
ORDER BY chapter_number`. -/
def chaptersOfManga (s : Store) (mangaId : Nat) : List ChapterRow :=
  (s.chapters.filter (fun c => c.offline_manga_id = mangaId)).mergeSort
    (fun a b => a.chapter_number ≤ b.chapter_number)

/-! ### The query programs

To settle the frame (no-mutation) and handle-release claims we model the
tool's interaction with the store as a sequence of SQL operations.  The
operation language also contains the write operations SQLite would accept
(with their real semantics on the store), so that "the program never
mutates the store" is a statement about which operations the two entry
points issue, not a tautology of the model. -/

/-- One SQL operation against the store.  The read operations are exactly
the queries issued by the two entry points; the write operations are
representative mutations (never issued by the tool). -/
inductive SqlOp where
  | selectTables
  | selectManga
  | selectChaptersJoined
  | selectQueue
  | countManga
  | countChapters
  | countStatus (st : String)
  | sumSizes
  | selectDuplicates
  | selectFrozen (now : Int)
  | selectEmptyChapters
  | selectMangaByKey (ext mid : String)
  | selectChaptersOf (mangaId : Nat)
  | selectQueueByKey (ext mid : String)
  | insertQueue (q : QueueRow)
  | deleteQueueEntry (qid : Nat)
  | updateQueueStatus (qid : Nat) (st : String)
deriving DecidableEq, Repr

/-- The result set of one operation. -/
inductive QueryResult where
  | tablesR (names : List String)
  | mangaR (rows : List MangaRow)
  | chaptersJoinedR (rows : List ChapterJoinRow)
  | queueR (rows : List QueueRow)
  | countR (n : Nat)
  | sumR (v : Option Int)
  | dupR (rows : List DupFinding)
  | frozenR (rows : List FrozenFinding)
  | emptyR (rows : List EmptyFinding)
  | oneMangaR (row : Option MangaRow)
  | chaptersR (rows : List ChapterRow)
  | writeOk
deriving Repr

/-- Execute one operation: the resulting store and the result set.  Read
operations leave the store unchanged; write operations really mutate it. -/
def applyOp (s : Store) : SqlOp → Store × QueryResult
  | .selectTables => (s, .tablesR (matchingTables s))
  | .selectManga => (s, .mangaR (listDownloadedWorks s))
  | .selectChaptersJoined => (s, .chaptersJoinedR (listChaptersJoined s))
  | .selectQueue => (s, .queueR (listQueueEntries s))
  | .countManga => (s, .countR s.manga.length)
  | .countChapters => (s, .countR s.chapters.length)
  | .countStatus st => (s, .countR (statusCount s st))
  | .sumSizes => (s, .sumR (sqlSum (s.manga.map (·.total_size_bytes))))
  | .selectDuplicates => (s, .dupR (duplicateFindings s))
  | .selectFrozen now => (s, .frozenR (frozenFindings s now))
  | .selectEmptyChapters => (s, .emptyR (emptyChapterFindings s))
  | .selectMangaByKey ext mid => (s, .oneMangaR (findMangaByKey s ext mid))
  | .selectChaptersOf mangaId => (s, .chaptersR (chaptersOfManga s mangaId))
  | .selectQueueByKey ext mid => (s, .queueR (queueItemsFor s ext mid))
  | .insertQueue q => ({ s with queue := s.queue ++ [q] }, .writeOk)
  | .deleteQueueEntry qid =>
      ({ s with queue := s.queue.filter (fun q => q.id ≠ qid) }, .writeOk)
  | .updateQueueStatus qid st =>
      ({ s with
          queue := s.queue.map
            (fun q => if q.id = qid then { q with status := st } else q) },
        .writeOk)

/-- Whether an operation is a read (issues no mutation). -/
def SqlOp.isRead : SqlOp → Bool
  | .insertQueue _ => false
  | .deleteQueueEntry _ => false
  | .updateQueueStatus _ _ => false
  | _ => true

/-- Run a sequence of operations; `failOn` is the failure oracle (a query
raising, e.g. on an incompatible schema).  Returns the final store and
whether every operation succeeded; a failure aborts the remainder. -/
def runOps (failOn : SqlOp → Bool) : Store → List SqlOp → Store × Bool
  | s, [] => (s, true)
  | s, op :: rest =>
      if failOn op then (s, false)
      else runOps failOn (applyOp s op).1 rest

/-- The outcome of one entry-point run: final store, whether the run was
aborted by a query failure, and whether `conn.close()` was executed. -/
structure RunResult where
  store : Store
  aborted : Bool
  closed : Bool
deriving Repr

/-- The queries `inspect_database` issues after the tables-present check,
in source order. -/
def inspectRestOps (now : Int) : List SqlOp :=
  [.selectManga, .selectChaptersJoined, .selectQueue,
   .countManga, .countChapters,
   .countStatus "queued", .countStatus "downloading", .countStatus "failed",
   .sumSizes, .selectDuplicates, .selectFrozen now, .selectEmptyChapters]

/-- The `inspect_database` entry point: the tables-present check, an early
`conn.close(); return` when no matching table exists, then the report
queries.  There is no `try`/`finally`: a query failure propagates and
`conn.close()` is never reached on that path. -/
def runInspect (s : Store) (now : Int) (failOn : SqlOp → Bool) : RunResult :=
  if failOn .selectTables then
    { store := s, aborted := true, closed := false }
  else
    let s1 := (applyOp s .selectTables).1
    if (matchingTables s1).isEmpty then
      { store := s1, aborted := false, closed := true }
    else
      let r := runOps failOn s1 (inspectRestOps now)
      { store := r.1, aborted := !r.2, closed := r.2 }

/-- The `check_specific_manga` entry point: the work lookup, an early
`conn.close(); return` when the work is absent, then the chapter and
queue queries.  Like `inspect_database` it has no `try`/`finally`. -/
def runCheck (s : Store) (ext mid : String) (failOn : SqlOp → Bool) :
    RunResult :=
  if failOn (.selectMangaByKey ext mid) then
    { store := s, aborted := true, closed := false }
  else
    let s1 := (applyOp s (.selectMangaByKey ext mid)).1
    match findMangaByKey s1 ext mid with
    | none => { store := s1, aborted := false, closed := true }
    | some m =>
        let r := runOps failOn s1
          [.selectChaptersOf m.id, .selectQueueByKey ext mid]
        { store := r.1, aborted := !r.2, closed := r.2 }

/-! ### Concrete stores and rows used by witnesses and counterexamples -/

/-- A store with every table empty. -/
def emptyStore : Store :=
  { tables := [], manga := [], chapters := [], queue := [] }

/-- A downloaded work for the duplicate-check witness. -/
def dupManga : MangaRow :=
  { id := 1, extension_id := "ext", manga_id := "w1", manga_slug := "slug-one",
    downloaded_at := 10, last_updated_at := none,
    total_size_bytes := some 1048576 }

/-- A downloaded chapter of `dupManga`. -/
def dupChapter : ChapterRow :=
  { id := 7, offline_manga_id := 1, chapter_id := "ch1", chapter_number := 1,
    chapter_title := none, total_pages := some 10, downloaded_at := 11,
    size_bytes := 100 }

/-- A queue entry referencing the already-downloaded `dupChapter`. -/
def dupEntry : QueueRow :=
  { id := 3, extension_id := "ext", manga_id := "w1", manga_slug := "slug-one",
    chapter_id := some "ch1", chapter_number := some 1, chapter_title := none,
    status := "failed", priority := 0, queued_at := 5, started_at := none,
    completed_at := none, error_message := none, progress_current := none,
    progress_total := none }

/-- The store for the duplicate-check witness. -/
def dupStore : Store :=
  { tables := ["offline_manga", "offline_chapters", "download_queue"],
    manga := [dupManga], chapters := [dupChapter], queue := [dupEntry] }

/-- A chapter with zero pages, for the empty-chapter witness. -/
def zeroPagesChapter : ChapterRow :=
  { id := 2, offline_manga_id := 1, chapter_id := "ch0", chapter_number := 1,
    chapter_title := none, total_pages := some 0, downloaded_at := 0,
    size_bytes := 0 }

/-- The store for the empty-chapter witness. -/
def zeroPagesStore : Store :=
  { tables := ["offline_chapters"],
    manga := [{ id := 1, extension_id := "e", manga_id := "w",
                manga_slug := "s", downloaded_at := 0,
                last_updated_at := none, total_size_bytes := none }],
    chapters := [zeroPagesChapter], queue := [] }

/-- A `downloading` queue entry started at time 0, for the boundary
witness. -/
def borderEntry : QueueRow :=
  { id := 1, extension_id := "e", manga_id := "w", manga_slug := "s",
    chapter_id := none, chapter_number := none, chapter_title := none,
    status := "downloading", priority := 0, queued_at := 0,
    started_at := some 0, completed_at := none, error_message := none,
    progress_current := none, progress_total := none }

/-- A `downloading` queue entry started at time 0 for the elapsed-minutes
counterexample. -/
def stuckEntry : QueueRow :=
  { id := 9, extension_id := "e", manga_id := "w", manga_slug := "s",
    chapter_id := none, chapter_number := none, chapter_title := none,
    status := "downloading", priority := 0, queued_at := 0,
    started_at := some 0, completed_at := none, error_message := none,
    progress_current := some 1, progress_total := some 4 }

/-- The store for the elapsed-minutes counterexample. -/
def stuckStore : Store :=
  { tables := ["download_queue"], manga := [], chapters := [],
    queue := [stuckEntry] }

/-- A store whose tables-present check succeeds, for the handle-release
counterexample. -/
def leakStore : Store :=
  { tables := ["download_queue"], manga := [], chapters := [], queue := [] }

/-- A failure oracle under which the first statistics query raises. -/
def failOnCountManga : SqlOp → Bool :=
  fun op => op = SqlOp.countManga

/-! ## Theorems -/

/-- C2: for every QueueEntry and every current time `now`, the
frozen-download check flags the entry iff `status = downloading`,
`started_at` is non-null and `now - started_at > 3600000` (strict); the
one-hour boundary `started_at = now - 3600000` is not flagged while
`started_at = now - 3600001` is. -/
theorem frozen_download_boundary (q : QueueRow) (now : Int) :
    (frozenFlag q now = true ↔
      q.status = "downloading" ∧
        ∃ t, q.started_at = some t ∧ now - t > 3600000) ∧
    (q.started_at = some (now - 3600000) → frozenFlag q now = false) ∧
    (q.status = "downloading" → q.started_at = some (now - 3600001) →
      frozenFlag q now = true) := by
  refine ⟨?_, ?_, ?_⟩
  · cases h : q.started_at with
    | none => simp [frozenFlag, h]
    | some t => simp [frozenFlag, h]
  · intro h
    simp [frozenFlag, h]
  · intro hs h
    simp [frozenFlag, h, hs]

/-- Witness for C2: a `downloading` entry started at 0 is flagged at
`now = 3600001` and not flagged at `now = 3600000`. -/
theorem frozen_download_boundary_witness :
    frozenFlag borderEntry 3600001 = true ∧
    frozenFlag borderEntry 3600000 = false := by
  constructor
  · exact (frozen_download_boundary borderEntry 3600001).2.2 rfl (by decide)
  · exact (frozen_download_boundary borderEntry 3600000).2.1 (by decide)

/-- C3: a DownloadedChapter (owned by an existing work) contributes an
EmptyChapter finding iff `total_pages = 0` or `total_pages` is null, the
two cases producing the same kind of finding; a chapter with
`total_pages = 1` contributes none, and every contributed finding appears
in the check's result. -/
theorem empty_chapter_check (s : Store) (c : ChapterRow)
    (hc : c ∈ s.chapters)
    (hfk : ∃ m ∈ s.manga, m.id = c.offline_manga_id) :
    (emptyFindingsFor s c ≠ [] ↔
      (c.total_pages = some 0 ∨ c.total_pages = none)) ∧
    (c.total_pages = some 1 → emptyFindingsFor s c = []) ∧
    (∀ f ∈ emptyFindingsFor s c, f ∈ emptyChapterFindings s ∧
      f.total_pages = c.total_pages) := by
  have hflag : emptyChapterFlag c = true ↔
      (c.total_pages = some 0 ∨ c.total_pages = none) := by
    cases h : c.total_pages with
    | none => simp [emptyChapterFlag, h]
    | some p => simp [emptyChapterFlag, h]
  refine ⟨?_, ?_, ?_⟩
  · rw [← hflag]
    unfold emptyFindingsFor
    by_cases hf : emptyChapterFlag c = true
    · rw [if_pos hf]
      refine ⟨fun _ => hf, fun _ hnil => ?_⟩
      rw [List.map_eq_nil_iff, List.filter_eq_nil_iff] at hnil
      obtain ⟨m, hm, hid⟩ := hfk
      exact hnil m hm (by simp [hid])
    · simp [hf]
  · intro h1
    unfold emptyFindingsFor
    have : emptyChapterFlag c = false := by
      simp [emptyChapterFlag, h1]
    simp [this]
  · intro f hf
    constructor
    · exact List.mem_flatMap.mpr ⟨c, hc, hf⟩
    · unfold emptyFindingsFor at hf
      by_cases hfl : emptyChapterFlag c
      · simp only [hfl, if_true, List.mem_map] at hf
        obtain ⟨m, _, rfl⟩ := hf
        rfl
      · simp [hfl] at hf

/-- Witness for C3: in `zeroPagesStore`, the chapter with
`total_pages = some 0` contributes a finding. -/
theorem empty_chapter_check_witness :
    zeroPagesChapter.total_pages = some 0 ∧
    emptyFindingsFor zeroPagesStore zeroPagesChapter ≠ [] := by
  refine ⟨rfl, ?_⟩
  exact (empty_chapter_check zeroPagesStore zeroPagesChapter
    (by simp [zeroPagesStore])
    ⟨{ id := 1, extension_id := "e", manga_id := "w", manga_slug := "s",
       downloaded_at := 0, last_updated_at := none,
       total_size_bytes := none },
      by simp [zeroPagesStore], rfl⟩).1.mpr (Or.inl rfl)

/-- C7, counterexample: the progress-percentage computation is not total
over all `downloading` entries — with `progress_current` null and
`progress_total = 1 > 0`, the guard passes and the Python division
raises (`none` in the model), even though this input is not in the
guarded null-or-nonpositive-total case where the claim allows 0%. -/
theorem progress_pct_not_total :
    progressPct none (some 1) = none ∧
    ¬((some 1 : Option Int) = none ∨ (1 : Int) ≤ 0) := by
  exact ⟨rfl, by simp⟩

/-- C7, amended: for every `downloading` entry whose `progress_current`
is non-null, the computation is total: if `progress_total` is null or
`≤ 0` the displayed percentage is 0%, otherwise it is
`progress_current / progress_total * 100`. -/
theorem progress_pct_amended (c : Int) (total : Option Int) :
    progressPct (some c) total =
      some (match total with
            | none => 0
            | some t => if 0 < t then ((c : ℚ) / (t : ℚ)) * 100 else 0) := by
  cases total with
  | none => rfl
  | some t =>
    by_cases ht : 0 < t
    · have hne : (t != 0) = true := by simp; omega
      simp [progressPct, pyTruthy, hne, ht]
    · have : (pyTruthy (some t) && (((some t : Option Int).getD 0) > 0)) = false := by
        simp [pyTruthy]
        omega
      simp [progressPct, this, ht]

/-- C8: an unrecognized status value is rendered with the distinct
"unknown" glyph, different from each of the four known glyphs, and the
mapping never fails (it is a total function). -/
theorem unknown_status_glyph (st : String)
    (h1 : st ≠ "queued") (h2 : st ≠ "downloading")
    (h3 : st ≠ "completed") (h4 : st ≠ "failed") :
    statusEmoji st = "❓" ∧
    statusEmoji st ≠ statusEmoji "queued" ∧
    statusEmoji st ≠ statusEmoji "downloading" ∧
    statusEmoji st ≠ statusEmoji "completed" ∧
    statusEmoji st ≠ statusEmoji "failed" := by
  have he : statusEmoji st = "❓" := by
    simp [statusEmoji, h1, h2, h3, h4]
  refine ⟨he, ?_, ?_, ?_, ?_⟩ <;> rw [he] <;> decide

/-- Witness for C8: the unrecognized status `"paused"` maps to the
unknown glyph. -/
theorem unknown_status_glyph_witness :
    statusEmoji "paused" = "❓" :=
  (unknown_status_glyph "paused" (by decide) (by decide) (by decide)
    (by decide)).1

/-- C4: on a store with zero rows in all three tables, the statistics
report all counts and the total size as 0 (a null SQL sum is rendered as
0), and each of the three anomaly checks renders the explicit clean
outcome. -/
theorem empty_store_report (s : Store) (now : Int)
    (hm : s.manga = []) (hc : s.chapters = []) (hq : s.queue = []) :
    computeStatistics s =
      { manga_count := 0, chapter_count := 0, queued_count := 0,
        downloading_count := 0, failed_count := 0, total_size := 0 } ∧
    outcomeOf (duplicateFindings s) = .clean ∧
    outcomeOf (frozenFindings s now) = .clean ∧
    outcomeOf (emptyChapterFindings s) = .clean := by
  obtain ⟨t, m, c, q⟩ := s
  simp only at hm hc hq
  subst hm hc hq
  exact ⟨rfl, rfl, rfl, rfl⟩

/-- Witness for C4: the empty store at `now = 0`. -/
theorem empty_store_report_witness :
    computeStatistics emptyStore =
      { manga_count := 0, chapter_count := 0, queued_count := 0,
        downloading_count := 0, failed_count := 0, total_size := 0 } ∧
    outcomeOf (duplicateFindings emptyStore) = .clean ∧
    outcomeOf (frozenFindings emptyStore 0) = .clean ∧
    outcomeOf (emptyChapterFindings emptyStore) = .clean :=
  empty_store_report emptyStore 0 rfl rfl rfl

/-- `queueLE` spelled out as a proposition: priority descending,
ties broken by `queued_at` ascending. -/
theorem queueLE_iff (a b : QueueRow) :
    queueLE a b = true ↔
      (b.priority < a.priority ∨
        (a.priority = b.priority ∧ a.queued_at ≤ b.queued_at)) := by
  simp [queueLE]

/-- The queue ordering is total. -/
theorem queueLE_total (a b : QueueRow) : queueLE a b || queueLE b a := by
  simp only [Bool.or_eq_true, queueLE_iff]
  omega

/-- The queue ordering is transitive. -/
theorem queueLE_trans (a b c : QueueRow) (h1 : queueLE a b)
    (h2 : queueLE b c) : queueLE a c := by
  rw [queueLE_iff] at h1 h2 ⊢
  omega

/-- Sorting the queue is stable on full-key ties: the rows with any given
`(priority, queued_at)` appear in `sortQueue l` exactly as they do in
`l`. -/
theorem sortQueue_stable (l : List QueueRow) (p t : Int) :
    (sortQueue l).filter (fun q => q.priority = p && q.queued_at = t) =
      l.filter (fun q => q.priority = p && q.queued_at = t) := by
  have hall : ∀ q ∈ l.filter (fun q => q.priority = p && q.queued_at = t),
      (fun q : QueueRow => (q.priority = p && q.queued_at = t : Bool)) q := by
    intro q hq
    exact (List.mem_filter.mp hq).2
  have hpair : (l.filter (fun q => q.priority = p && q.queued_at = t)).Pairwise
      (fun a b => queueLE a b = true) := by
    apply List.pairwise_of_forall_mem_list
    intro a ha b hb
    have ha' := hall a ha
    have hb' := hall b hb
    simp only [Bool.and_eq_true, decide_eq_true_eq] at ha' hb'
    rw [queueLE_iff]
    omega
  have hsub : List.Sublist
      (l.filter (fun q => q.priority = p && q.queued_at = t))
      (sortQueue l) :=
    List.sublist_mergeSort queueLE_trans queueLE_total hpair
      (List.filter_sublist l)
  have hsub2 : List.Sublist
      (l.filter (fun q => q.priority = p && q.queued_at = t))
      ((sortQueue l).filter (fun q => q.priority = p && q.queued_at = t)) := by
    have := hsub.filter (fun q => q.priority = p && q.queued_at = t)
    rwa [List.filter_eq_self.mpr hall] at this
  have hlen : ((sortQueue l).filter
        (fun q => q.priority = p && q.queued_at = t)).length =
      (l.filter (fun q => q.priority = p && q.queued_at = t)).length :=
    ((List.mergeSort_perm l queueLE).filter _).length_eq
  exact (hsub2.eq_of_length hlen.symm).symm

/-- C5: both queue listings are permutations of their input rows, sorted
by `priority` descending with ties broken by `queued_at` ascending, and
the sort is stable (rows tied on both keys keep their input order); the
single-target lookup applies the same rule to the rows matching its
`(extension_id, work_id)` filter. -/
theorem queue_listing_order (s : Store) (ext mid : String) :
    (listQueueEntries s).Perm s.queue ∧
    (listQueueEntries s).Pairwise
      (fun a b => b.priority < a.priority ∨
        (a.priority = b.priority ∧ a.queued_at ≤ b.queued_at)) ∧
    (∀ p t, (listQueueEntries s).filter
        (fun q => q.priority = p && q.queued_at = t) =
      s.queue.filter (fun q => q.priority = p && q.queued_at = t)) ∧
    (queueItemsFor s ext mid).Perm
      (s.queue.filter
        (fun q => q.extension_id = ext && q.manga_id = mid)) ∧
    (queueItemsFor s ext mid).Pairwise
      (fun a b => b.priority < a.priority ∨
        (a.priority = b.priority ∧ a.queued_at ≤ b.queued_at)) ∧
    (∀ p t, (queueItemsFor s ext mid).filter
        (fun q => q.priority = p && q.queued_at = t) =
      (s.queue.filter
          (fun q => q.extension_id = ext && q.manga_id = mid)).filter
        (fun q => q.priority = p && q.queued_at = t)) := by
  refine ⟨List.mergeSort_perm s.queue queueLE, ?_,
    fun p t => sortQueue_stable s.queue p t,
    List.mergeSort_perm _ queueLE, ?_,
    fun p t => sortQueue_stable _ p t⟩
  · exact (List.sorted_mergeSort queueLE_trans queueLE_total s.queue).imp
      (fun h => (queueLE_iff _ _).mp h)
  · exact (List.sorted_mergeSort queueLE_trans queueLE_total _).imp
      (fun h => (queueLE_iff _ _).mp h)

/-- Read operations leave the store unchanged. -/
theorem applyOp_read_store (s : Store) (op : SqlOp) (h : op.isRead = true) :
    (applyOp s op).1 = s := by
  cases op <;> first
    | rfl
    | simp [SqlOp.isRead] at h

/-- Running a sequence of read operations never changes the store, even
when the failure oracle aborts the run partway. -/
theorem runOps_reads_store (failOn : SqlOp → Bool) (ops : List SqlOp)
    (h : ∀ op ∈ ops, op.isRead = true) :
    ∀ s : Store, (runOps failOn s ops).1 = s := by
  induction ops with
  | nil => intro s; rfl
  | cons op rest ih =>
    intro s
    rw [runOps]
    split
    · rfl
    · rw [applyOp_read_store s op (h op (List.mem_cons_self op rest))]
      exact ih (fun o ho => h o (List.mem_cons_of_mem _ ho)) s

/-- Every query of `inspect_database` after the tables check is a read. -/
theorem inspectRestOps_reads (now : Int) :
    ∀ op ∈ inspectRestOps now, op.isRead = true := by
  intro op hop
  simp only [inspectRestOps, List.mem_cons, List.not_mem_nil, or_false] at hop
  rcases hop with rfl | rfl | rfl | rfl | rfl | rfl | rfl | rfl | rfl | rfl |
    rfl | rfl <;> rfl

/-- C6: no run of either entry point mutates the store — for every store,
time, failure oracle and lookup key, the tables are identical before and
after the run, whether it completes, early-returns, or is aborted by a
query failure. -/
theorem tool_never_mutates (s : Store) (now : Int) (failOn : SqlOp → Bool)
    (ext mid : String) :
    (runInspect s now failOn).store = s ∧
    (runCheck s ext mid failOn).store = s := by
  constructor
  · simp only [runInspect]
    split
    · rfl
    · simp only [show (applyOp s SqlOp.selectTables).1 = s from rfl]
      split
      · rfl
      · exact runOps_reads_store failOn (inspectRestOps now)
          (inspectRestOps_reads now) s
  · simp only [runCheck]
    split
    · rfl
    · simp only [show (applyOp s (SqlOp.selectMangaByKey ext mid)).1 = s
        from rfl]
      split
      · rfl
      · apply runOps_reads_store
        intro op hop
        simp only [List.mem_cons, List.not_mem_nil, or_false] at hop
        rcases hop with rfl | rfl <;> rfl

/-- C9, counterexample: on a store whose tables-present check succeeds,
under an oracle making the first statistics query fail, the run aborts
and `conn.close()` is never executed — the script has no `try`/`finally`,
so a failing query leaves the handle open, contrary to the claim that
every path closes it. -/
theorem inspect_handle_leak :
    (runInspect leakStore 0 failOnCountManga).aborted = true ∧
    (runInspect leakStore 0 failOnCountManga).closed = false := by
  have h1 : matchingTables leakStore = ["download_queue"] := by
    rw [matchingTables,
      show leakStore.tables.filter
          (fun n => sqlLike "offline" n || sqlLike "download" n) =
        ["download_queue"] from rfl]
    exact List.mergeSort_singleton _
  have h2 : matchingTables (applyOp leakStore SqlOp.selectTables).1 =
      ["download_queue"] := h1
  constructor <;>
    · simp only [runInspect, h2]
      rfl

/-- A run whose oracle fails no query succeeds in full. -/
theorem runOps_no_fail (failOn : SqlOp → Bool) (h : ∀ op, failOn op = false) :
    ∀ (ops : List SqlOp) (s : Store), (runOps failOn s ops).2 = true := by
  intro ops
  induction ops with
  | nil => intro s; rfl
  | cons op rest ih =>
    intro s
    rw [runOps, h op]
    simp only [Bool.false_eq_true, if_false]
    exact ih _

/-- C9, amended: the handle is closed on every run in which no query
fails — both on the early no-tables return and at the end of the full
report; only a run aborted by a query failure terminates without the
script executing `conn.close()`. -/
theorem inspect_closes_when_no_failure (s : Store) (now : Int)
    (failOn : SqlOp → Bool) (h : ∀ op, failOn op = false) :
    (runInspect s now failOn).closed = true := by
  simp only [runInspect, h, Bool.false_eq_true, if_false]
  split
  · rfl
  · exact runOps_no_fail failOn h (inspectRestOps now) _

/-- Witness for the amended C9: a failure-free run over `leakStore`
closes the handle. -/
theorem inspect_closes_when_no_failure_witness :
    (runInspect leakStore 0 (fun _ => false)).closed = true :=
  inspect_closes_when_no_failure leakStore 0 (fun _ => false) (fun _ => rfl)

/-- C10, counterexample: a download stuck for 3690001 ms (61.5000…
minutes) is reported as 61 minutes — the SQL expression
`(now - started_at) / 1000 / 60` is SQLite integer division, so the
fractional part of the elapsed minutes is truncated before display, not
preserved. -/
theorem frozen_minutes_truncated :
    (frozenFindings stuckStore 3690001).map (·.minutes_elapsed) = [61] ∧
    ((3690001 : ℚ) - 0) / 60000 ≠ ((61 : Int) : ℚ) := by
  constructor
  · rfl
  · norm_num

/-- The two-step integer division by 1000 then 60 is the floor of the
exact rational division by 60000. -/
theorem intDiv_minutes_bounds (a : Int) :
    ((a / 1000 / 60 : Int) : ℚ) ≤ ((a : Int) : ℚ) / 60000 ∧
    ((a : Int) : ℚ) / 60000 < ((a / 1000 / 60 : Int) : ℚ) + 1 := by
  constructor
  · rw [le_div_iff₀ (by norm_num : (0 : ℚ) < 60000)]
    exact_mod_cast (by omega : (a / 1000 / 60) * 60000 ≤ a)
  · rw [div_lt_iff₀ (by norm_num : (0 : ℚ) < 60000)]
    exact_mod_cast (by omega : a < (a / 1000 / 60 + 1) * 60000)

/-- C10, amended: for every flagged frozen download, the elapsed time is
reported as a whole number of minutes, the truncation (floor) of the
exact fractional minute count `(now - started_at) / 60000`: the
fractional part is discarded (the renderer then prints this integer with
one decimal place). -/
theorem frozen_minutes_floor (s : Store) (now : Int) (f : FrozenFinding)
    (hf : f ∈ frozenFindings s now) :
    ∃ q ∈ s.queue, ∃ t : Int, q.started_at = some t ∧
      now - t > 3600000 ∧
      f.minutes_elapsed = (now - t) / 1000 / 60 ∧
      ((f.minutes_elapsed : ℚ) ≤ ((now - t : Int) : ℚ) / 60000 ∧
        ((now - t : Int) : ℚ) / 60000 < (f.minutes_elapsed : ℚ) + 1) := by
  rw [frozenFindings, List.mem_map] at hf
  obtain ⟨q, hq, rfl⟩ := hf
  rw [List.mem_filter] at hq
  have hflag := hq.2
  simp only [frozenFlag, Bool.and_eq_true, decide_eq_true_eq] at hflag
  obtain ⟨hst, hmatch⟩ := hflag
  cases hstart : q.started_at with
  | none =>
    rw [hstart] at hmatch
    exact absurd hmatch (by simp)
  | some t =>
    rw [hstart] at hmatch
    simp only [decide_eq_true_eq] at hmatch
    exact ⟨q, hq.1, t, hstart, hmatch, rfl,
      (intDiv_minutes_bounds (now - t)).1,
      (intDiv_minutes_bounds (now - t)).2⟩

/-- Witness for the amended C10: the stuck entry of `stuckStore` at
`now = 3690001` reports 61 whole minutes, the floor of its 61.50002
fractional minutes. -/
theorem frozen_minutes_floor_witness :
    ∃ q ∈ stuckStore.queue, ∃ t : Int, q.started_at = some t ∧
      3690001 - t > 3600000 ∧
      (61 : Int) = (3690001 - t) / 1000 / 60 ∧
      (((61 : Int) : ℚ) ≤ ((3690001 - t : Int) : ℚ) / 60000 ∧
        ((3690001 - t : Int) : ℚ) / 60000 < ((61 : Int) : ℚ) + 1) :=
  frozen_minutes_floor stuckStore 3690001
    { id := 9, manga_slug := "s", chapter_number := none,
      started_at := some 0, minutes_elapsed := 61 }
    (List.mem_singleton_self _)

/-- A filter over a list no two of whose elements can both satisfy the
predicate keeps at most one element. -/
theorem length_filter_le_one {α : Type} (p : α → Bool) (l : List α)
    (h : l.Pairwise fun a b => ¬(p a = true ∧ p b = true)) :
    (l.filter p).length ≤ 1 := by
  induction l with
  | nil => simp
  | cons x xs ih =>
    rw [List.pairwise_cons] at h
    by_cases hx : p x = true
    · have hnil : xs.filter p = [] := by
        rw [List.filter_eq_nil_iff]
        intro b hb hpb
        exact h.1 b hb ⟨hx, hpb⟩
      simp [List.filter_cons, hx, hnil]
    · simp only [List.filter_cons, hx, if_false]
      exact ih h.2

/-- C1: under the store invariants (business key `(extension_id,
manga_id)` unique among works, `chapter_id` unique among a work's
chapters), the duplicate check flags a QueueEntry — contributes at least
one finding — iff its `chapter_id` is non-null and some DownloadedWork
matches on `(extension_id, manga_id)` owning a DownloadedChapter matching
on `chapter_id`; an offending entry contributes exactly one finding; each
finding carries the entry's id, current status and chapter id, with no
filtering by status; null-`chapter_id` entries contribute nothing; and
every contribution of a queue row appears in the check's result. -/
theorem duplicate_queue_check (s : Store) (q : QueueRow)
    (hm : s.manga.Pairwise fun a b =>
      a.extension_id ≠ b.extension_id ∨ a.manga_id ≠ b.manga_id)
    (hc : s.chapters.Pairwise fun a b =>
      a.offline_manga_id ≠ b.offline_manga_id ∨ a.chapter_id ≠ b.chapter_id) :
    (dupFindingsFor s q ≠ [] ↔
      (q.chapter_id ≠ none ∧ ∃ m ∈ s.manga,
        m.extension_id = q.extension_id ∧ m.manga_id = q.manga_id ∧
        ∃ c ∈ s.chapters, c.offline_manga_id = m.id ∧
          some c.chapter_id = q.chapter_id)) ∧
    (dupFindingsFor s q ≠ [] → (dupFindingsFor s q).length = 1) ∧
    (∀ f ∈ dupFindingsFor s q,
      f.queue_id = q.id ∧ f.queue_status = q.status ∧
        f.chapter_id = q.chapter_id) ∧
    (q.chapter_id = none → dupFindingsFor s q = []) ∧
    (q ∈ s.queue → ∀ f ∈ dupFindingsFor s q, f ∈ duplicateFindings s) := by
  have key : dupFindingsFor s q ≠ [] ↔
      (q.chapter_id ≠ none ∧ ∃ m ∈ s.manga,
        m.extension_id = q.extension_id ∧ m.manga_id = q.manga_id ∧
        ∃ c ∈ s.chapters, c.offline_manga_id = m.id ∧
          some c.chapter_id = q.chapter_id) := by
    unfold dupFindingsFor
    cases hqc : q.chapter_id with
    | none => simp
    | some cid =>
      simp only [Option.isSome_some, if_true]
      constructor
      · intro hne
        refine ⟨by simp, ?_⟩
        obtain ⟨f, hf⟩ := List.exists_mem_of_ne_nil _ hne
        rw [List.mem_flatMap] at hf
        obtain ⟨m, hmf, hfm⟩ := hf
        rw [List.mem_filter] at hmf
        rw [List.mem_map] at hfm
        obtain ⟨c, hcf, -⟩ := hfm
        rw [List.mem_filter] at hcf
        have hm2 := hmf.2
        have hc2 := hcf.2
        simp only [Bool.and_eq_true, decide_eq_true_eq] at hm2 hc2
        exact ⟨m, hmf.1, hm2.1, hm2.2, c, hcf.1, hc2.1, hc2.2⟩
      · rintro ⟨-, m, hmm, hext, hmid, c, hcc, hoid, hcid⟩
        intro hnil
        rw [List.flatMap_eq_nil_iff] at hnil
        have h1 := hnil m (List.mem_filter.mpr ⟨hmm, by simp [hext, hmid]⟩)
        rw [List.map_eq_nil_iff, List.filter_eq_nil_iff] at h1
        exact h1 c hcc (by simp [hoid, hcid])
  have hfields : ∀ f ∈ dupFindingsFor s q,
      f.queue_id = q.id ∧ f.queue_status = q.status ∧
        f.chapter_id = q.chapter_id := by
    intro f hf
    unfold dupFindingsFor at hf
    by_cases hqc : q.chapter_id.isSome
    · rw [if_pos hqc] at hf
      rw [List.mem_flatMap] at hf
      obtain ⟨m, -, hfm⟩ := hf
      rw [List.mem_map] at hfm
      obtain ⟨c, -, rfl⟩ := hfm
      exact ⟨rfl, rfl, rfl⟩
    · rw [if_neg hqc] at hf
      exact absurd hf (List.not_mem_nil f)
  refine ⟨key, ?_, hfields, ?_, ?_⟩
  · intro hne
    obtain ⟨hqc, m0, hm0, hext, hmid, c0, hc0, hoid, hcid⟩ := key.mp hne
    obtain ⟨cid, hcideq⟩ := Option.ne_none_iff_exists'.mp hqc
    unfold dupFindingsFor
    rw [if_pos (by simp [hcideq])]
    have hm1 : (s.manga.filter (fun m =>
        m.extension_id = q.extension_id && m.manga_id = q.manga_id)).length
          ≤ 1 := by
      apply length_filter_le_one
      apply hm.imp
      intro a b hab hpair
      simp only [Bool.and_eq_true, decide_eq_true_eq] at hpair
      rcases hab with h | h
      · exact h (hpair.1.1.trans hpair.2.1.symm)
      · exact h (hpair.1.2.trans hpair.2.2.symm)
    have hm0mem : m0 ∈ s.manga.filter (fun m =>
        m.extension_id = q.extension_id && m.manga_id = q.manga_id) :=
      List.mem_filter.mpr ⟨hm0, by simp [hext, hmid]⟩
    have hm1' : (s.manga.filter (fun m =>
        m.extension_id = q.extension_id && m.manga_id = q.manga_id)).length
          = 1 := by
      have : 1 ≤ (s.manga.filter (fun m =>
          m.extension_id = q.extension_id && m.manga_id = q.manga_id)).length :=
        List.length_pos.mpr (List.ne_nil_of_mem hm0mem)
      omega
    obtain ⟨m1, hM⟩ := List.length_eq_one.mp hm1'
    have hm01 : m1 = m0 := by
      have := hm0mem
      rw [hM] at this
      exact (List.mem_singleton.mp this).symm
    rw [hm01] at hM
    rw [hM]
    simp only [List.flatMap_cons, List.flatMap_nil, List.append_nil,
      List.length_map]
    have hc1 : (s.chapters.filter (fun c =>
        c.offline_manga_id = m0.id && some c.chapter_id = q.chapter_id)).length
          ≤ 1 := by
      apply length_filter_le_one
      apply hc.imp
      intro a b hab hpair
      simp only [Bool.and_eq_true, decide_eq_true_eq] at hpair
      rcases hab with h | h
      · exact h (hpair.1.1.trans hpair.2.1.symm)
      · exact h (Option.some.inj (hpair.1.2.trans hpair.2.2.symm))
    have hc0mem : c0 ∈ s.chapters.filter (fun c =>
        c.offline_manga_id = m0.id && some c.chapter_id = q.chapter_id) :=
      List.mem_filter.mpr ⟨hc0, by simp [hoid, hcid]⟩
    have : 1 ≤ (s.chapters.filter (fun c =>
        c.offline_manga_id = m0.id && some c.chapter_id = q.chapter_id)).length :=
      List.length_pos.mpr (List.ne_nil_of_mem hc0mem)
    omega
  · intro hqc
    unfold dupFindingsFor
    rw [if_neg (by simp [hqc])]
  · intro hq f hf
    exact List.mem_flatMap.mpr ⟨q, hq, hf⟩

/-- Witness for C1: in `dupStore`, whose invariants hold, the queue entry
`dupEntry` (status `failed`, non-null chapter id matching the downloaded
`dupChapter` of `dupManga`) is flagged with exactly one finding. -/
theorem duplicate_queue_check_witness :
    dupFindingsFor dupStore dupEntry ≠ [] ∧
    (dupFindingsFor dupStore dupEntry).length = 1 := by
  have h := duplicate_queue_check dupStore dupEntry
    (by simp [dupStore]) (by simp [dupStore])
  have hne : dupFindingsFor dupStore dupEntry ≠ [] :=
    h.1.mpr ⟨by simp [dupEntry], dupManga, by simp [dupStore], rfl, rfl,
      dupChapter, by simp [dupStore], rfl, rfl⟩
  exact ⟨hne, h.2.1 hne⟩
